import Mathlib

/-!
Verification of the Xavier command bridge (`.xavier/xavier_bridge.py`).

The bridge is a pure translation shim: it reads a command name and optional
JSON argument text from process arguments, resolves the command through a
static alias table, invokes an external executor (`XavierCommands`, out of
scope for this repository fragment), and formats the executor's result to
standard output.

The embedding below models the bridge's `main` function as a pure function
from the argument vector, an abstract JSON decoder (standing for
`json.loads`, which either returns a decoded value or raises), and an
abstract executor model (standing for `XavierCommands`, whose construction
or `execute` call may raise) to an observable outcome: the printed lines,
the process exit status, and a trace of the call made to the executor.
-/

namespace XavierBridge

/-- Dynamic values as produced by `json.loads` and consumed by `json.dumps`
and Python string formatting. Numbers are modelled as integers (no claim
involves floating point). -/
inductive JValue where
  | null
  | bool (b : Bool)
  | num (n : Int)
  | str (s : String)
  | arr (elems : List JValue)
  | obj (fields : List (String × JValue))

/-- True exactly for mapping (dict) values. -/
def JValue.isObj : JValue → Bool
  | .obj _ => true
  | _ => false

/-- Lowercase hexadecimal digit for `n < 16`. -/
def hexDigit (n : Nat) : Char :=
  if n < 10 then Char.ofNat (48 + n) else Char.ofNat (87 + n)

/-- Rendering of a `\uXXXX` escape for a code unit `n < 0x10000`. -/
def uEscape (n : Nat) : List Char :=
  ['\\', 'u', hexDigit (n / 4096 % 16), hexDigit (n / 256 % 16),
   hexDigit (n / 16 % 16), hexDigit (n % 16)]

/-- Escaping of one character inside a JSON string literal, following
`json.dumps` with its default `ensure_ascii=True`: printable ASCII other
than quote and backslash passes through, short escapes for the usual
control characters, `\uXXXX` (with surrogate pairs above the BMP) for the
rest. -/
def jsonEscapeChar (c : Char) : List Char :=
  if c = '"' then ['\\', '"']
  else if c = '\\' then ['\\', '\\']
  else if c = '\n' then ['\\', 'n']
  else if c = '\t' then ['\\', 't']
  else if c = '\r' then ['\\', 'r']
  else if c.toNat = 8 then ['\\', 'b']
  else if c.toNat = 12 then ['\\', 'f']
  else if c.toNat < 32 || c.toNat > 126 then
    if c.toNat < 65536 then uEscape c.toNat
    else
      uEscape (55296 + (c.toNat - 65536) / 1024) ++
      uEscape (56320 + (c.toNat - 65536) % 1024)
  else [c]

/-- JSON string literal: the escaped characters wrapped in double quotes. -/
def jsonQuote (s : String) : String :=
  "\"" ++ String.mk (s.data.map jsonEscapeChar).flatten ++ "\""

/-- A run of `n` spaces. -/
def spaces (n : Nat) : String := String.mk (List.replicate n ' ')

mutual
/-- Rendering of a value as `json.dumps(value, indent=2)` does, `cur` being
the indentation column of the surrounding container. With an indent,
Python separates items by `",\n"` and keys from values by `": "`; empty
containers stay on one line. -/
def jsonRender (cur : Nat) : JValue → String
  | .null => "null"
  | .bool true => "true"
  | .bool false => "false"
  | .num n => toString n
  | .str s => jsonQuote s
  | .arr [] => "[]"
  | .arr (x :: xs) =>
      "[\n" ++ String.intercalate ",\n" (jsonRenderList (cur + 2) (x :: xs)) ++
      "\n" ++ spaces cur ++ "]"
  | .obj [] => "\x7b\x7d"
  | .obj (f :: fs) =>
      "\x7b\n" ++ String.intercalate ",\n" (jsonRenderFields (cur + 2) (f :: fs)) ++
      "\n" ++ spaces cur ++ "\x7d"
/-- Rendering of array elements, each on its own line at column `cur`. -/
def jsonRenderList (cur : Nat) : List JValue → List String
  | [] => []
  | x :: xs => (spaces cur ++ jsonRender cur x) :: jsonRenderList cur xs
/-- Rendering of object fields, each on its own line at column `cur`. -/
def jsonRenderFields (cur : Nat) : List (String × JValue) → List String
  | [] => []
  | (k, v) :: fs =>
      (spaces cur ++ jsonQuote k ++ ": " ++ jsonRender cur v) ::
      jsonRenderFields cur fs
end

/-- Model of `json.dumps(v, indent=2)` as called on line 54 of
`xavier_bridge.py`. -/
def jsonDumpsIndent2 (v : JValue) : String := jsonRender 0 v

/-- Model of Python `repr` on a string: quoted with single quotes unless
the string contains a single quote and no double quote, backslash and the
chosen quote escaped, short escapes for newline/return/tab, `\xhh` for the
remaining ASCII control characters. -/
def pyReprStr (s : String) : String :=
  let useDouble := s.data.contains '\'' && !(s.data.contains '"')
  let q : Char := if useDouble then '"' else '\''
  let esc : Char → List Char := fun c =>
    if c = '\\' then ['\\', '\\']
    else if c = q then ['\\', q]
    else if c = '\n' then ['\\', 'n']
    else if c = '\r' then ['\\', 'r']
    else if c = '\t' then ['\\', 't']
    else if c.toNat < 32 || c.toNat = 127 then
      ['\\', 'x', hexDigit (c.toNat / 16), hexDigit (c.toNat % 16)]
    else [c]
  String.mk (q :: (s.data.map esc).flatten ++ [q])

mutual
/-- Model of Python `repr` on the dynamic values of `JValue`. -/
def pyRepr : JValue → String
  | .null => "None"
  | .bool true => "True"
  | .bool false => "False"
  | .num n => toString n
  | .str s => pyReprStr s
  | .arr l => "[" ++ String.intercalate ", " (pyReprList l) ++ "]"
  | .obj l => "\x7b" ++ String.intercalate ", " (pyReprFields l) ++ "\x7d"
/-- The `repr` of each element of a list value. -/
def pyReprList : List JValue → List String
  | [] => []
  | x :: xs => pyRepr x :: pyReprList xs
/-- The `repr` of each `key: value` pair of a dict value. -/
def pyReprFields : List (String × JValue) → List String
  | [] => []
  | (k, v) :: fs => (pyReprStr k ++ ": " ++ pyRepr v) :: pyReprFields fs
end

/-- Model of Python `str` (as used by f-string interpolation on line 58):
identity on strings, `repr`-like rendering on everything else. -/
def pyStr : JValue → String
  | .str s => s
  | .null => pyRepr .null
  | .bool b => pyRepr (.bool b)
  | .num n => pyRepr (.num n)
  | .arr l => pyRepr (.arr l)
  | .obj l => pyRepr (.obj l)

/-- Model of `command.replace('/', '')` (line 46): every slash is removed,
not only a leading one. -/
def stripSlashes (s : String) : String :=
  String.mk (s.data.filter (fun c => c ≠ '/'))

/-- The static alias table `command_map` of lines 32-44. -/
def command_map : List (String × String) :=
  [("create-project", "/create-project"),
   ("create-story", "/create-story"),
   ("create-task", "/create-task"),
   ("create-bug", "/create-bug"),
   ("create-sprint", "/create-sprint"),
   ("start-sprint", "/start-sprint"),
   ("show-backlog", "/show-backlog"),
   ("xavier-help", "/xavier-help"),
   ("xavier-update", "/xavier-update"),
   ("estimate-story", "/estimate-story"),
   ("set-story-points", "/set-story-points")]

/-- Alias resolution, line 46:
`command_map.get(command.replace('/', ''), f"/{command}")`. The
slash-stripped name is used for the table lookup; the default prefixes a
slash to the raw (unstripped) command. -/
def resolveCommand (command : String) : String :=
  match command_map.find? (fun p => p.1 == stripSlashes command) with
  | some p => p.2
  | none => "/" ++ command

/-- Argument parsing, lines 23-29: `args` starts as the empty dict; when
extra positional arguments exist they are joined with single spaces and
decoded with `json.loads`; a decode failure is swallowed by the bare
`except`, leaving the empty dict. `loads` abstracts `json.loads`, `none`
standing for a raised decode error. -/
def parseArgs (loads : String → Option JValue) (rest : List String) : JValue :=
  if rest.isEmpty then .obj []
  else
    match loads (String.intercalate " " rest) with
    | some v => v
    | none => .obj []

/-- Model of Python `dict.get(k)` / `k in dict` on an association list:
the value at the first matching key, if any. -/
def dictGet (d : List (String × JValue)) (k : String) : Option JValue :=
  (d.find? (fun p => p.1 == k)).map (fun p => p.2)

/-- Python truthiness of a dynamic value. -/
def truthy : JValue → Bool
  | .null => false
  | .bool b => b
  | .num n => n != 0
  | .str s => s != ""
  | .arr l => !l.isEmpty
  | .obj l => !l.isEmpty

/-- Python truthiness of `dict.get(k)`: a missing key yields `None`,
which is falsy. -/
def truthyOpt : Option JValue → Bool
  | none => false
  | some v => truthy v

/-- Result formatting, lines 52-58: on a truthy `success` field, either the
`result` field pretty-printed as indented JSON (when present) or the fixed
success line; otherwise the error line built from `result.get('error',
'Unknown error')` through f-string (`str`) interpolation. -/
def formatResult (result : List (String × JValue)) : String :=
  if truthyOpt (dictGet result "success") then
    match dictGet result "result" with
    | some v => jsonDumpsIndent2 v
    | none => "✅ Command executed successfully"
  else
    "❌ Error: " ++ pyStr ((dictGet result "error").getD (.str "Unknown error"))

/-- Abstraction of the external `XavierCommands` collaborator:
`constructError = some e` means `XavierCommands(os.getcwd())` raises an
exception whose `str` is `e` (line 49); `execute` yields either the result
dict or, via `.error e`, a raised exception (line 50). -/
structure ExecutorModel where
  constructError : Option String
  execute : String → JValue → Except String (List (String × JValue))

/-- Observable outcome of one run of `main`: the printed lines, the process
exit status, whether executor construction was attempted, and the
(command, args) pair passed to `execute` when the invocation happened. -/
structure BridgeOutcome where
  output : List String
  exitCode : Nat
  constructAttempted : Bool
  executeCall : Option (String × JValue)

/-- The bridge's `main` (lines 17-60). `argv` is the full `sys.argv`
including the program name. Fewer than two entries: usage text and exit
status 1 (lines 18-20). Otherwise the command is resolved, the extra
arguments parsed, and the executor constructed and invoked inside the
`try` of lines 48-60, whose `except` prints the error line; `main` then
returns and the process exits with status 0. -/
def main (argv : List String) (loads : String → Option JValue)
    (ex : ExecutorModel) : BridgeOutcome :=
  match argv with
  | _prog :: command :: rest =>
    match ex.constructError with
    | some e =>
        { output := ["❌ Error: " ++ e], exitCode := 0,
          constructAttempted := true, executeCall := none }
    | none =>
        match ex.execute (resolveCommand command) (parseArgs loads rest) with
        | .error e =>
            { output := ["❌ Error: " ++ e], exitCode := 0,
              constructAttempted := true,
              executeCall := some (resolveCommand command, parseArgs loads rest) }
        | .ok result =>
            { output := [formatResult result], exitCode := 0,
              constructAttempted := true,
              executeCall := some (resolveCommand command, parseArgs loads rest) }
  | _ =>
    { output := ["Usage: xavier_bridge.py <command> [arguments]"], exitCode := 1,
      constructAttempted := false, executeCall := none }

/-- Every canonical identifier in the alias table starts with a slash. -/
theorem command_map_values_slash :
    ∀ q ∈ command_map, q.2.data.head? = some '/' := by decide

/-- Whatever the command resolves to starts with a slash: the table values
all do, and the default branch prepends one. -/
theorem resolveCommand_head (c : String) :
    (resolveCommand c).data.head? = some '/' := by
  unfold resolveCommand
  cases hf : command_map.find? (fun p => p.1 == stripSlashes c) with
  | none => rfl
  | some p => exact command_map_values_slash p (List.mem_of_find?_eq_some hf)

/-- When executor construction succeeds, `execute` is invoked exactly with
the resolved command and the parsed arguments, whether or not the call
itself raises. -/
theorem main_executeCall (prog command : String) (rest : List String)
    (loads : String → Option JValue) (ex : ExecutorModel)
    (hc : ex.constructError = none) :
    (main (prog :: command :: rest) loads ex).executeCall =
      some (resolveCommand command, parseArgs loads rest) := by
  simp only [main, hc]
  cases hx : ex.execute (resolveCommand command) (parseArgs loads rest) <;>
    simp only [hx]

/-- C1 (counterexample): the claim fails on slash-prefixed input. The name
`fake-cmd` is not a key of the alias table, yet the input `/fake-cmd`
resolves to `//fake-cmd`, not to `/fake-cmd`: line 46 strips slashes only
for the lookup and prefixes a slash to the raw command in the default. -/
theorem resolve_slash_input_counterexample :
    command_map.find? (fun p => p.1 == stripSlashes "/fake-cmd") = none ∧
    resolveCommand "/fake-cmd" = "//fake-cmd" ∧
    resolveCommand "/fake-cmd" ≠ "/fake-cmd" := by
  refine ⟨rfl, rfl, ?_⟩
  decide

/-- C1 (amended): for every command name whose slash-stripped form is not a
key of the alias table, resolution yields the raw (unstripped) input
prefixed with a slash, so `x` resolves to `/x` but `/x` resolves to
`//x`. -/
theorem resolve_unrecognized_prefixes_raw (c : String)
    (h : command_map.find? (fun p => p.1 == stripSlashes c) = none) :
    resolveCommand c = "/" ++ c := by
  unfold resolveCommand
  rw [h]

/-- Witness for `resolve_unrecognized_prefixes_raw` at the unrecognized
name `fake-cmd`. -/
theorem resolve_unrecognized_prefixes_raw_witness :
    resolveCommand "fake-cmd" = "/" ++ "fake-cmd" :=
  resolve_unrecognized_prefixes_raw "fake-cmd" rfl

/-- C2: whenever executor construction or the `execute` invocation raises
an error with message `e`, the bridge prints the single line
`❌ Error: e` and the process exits with status 0. -/
theorem exec_raise_prints_error_exits_zero (prog command : String)
    (rest : List String) (loads : String → Option JValue) (ex : ExecutorModel)
    (e : String)
    (h : ex.constructError = some e ∨
      (ex.constructError = none ∧
       ex.execute (resolveCommand command) (parseArgs loads rest) =
         Except.error e)) :
    (main (prog :: command :: rest) loads ex).output = ["❌ Error: " ++ e] ∧
    (main (prog :: command :: rest) loads ex).exitCode = 0 := by
  rcases h with hc | ⟨hc, hx⟩
  · simp only [main, hc]
    exact ⟨trivial, trivial⟩
  · simp only [main, hc, hx]
    exact ⟨trivial, trivial⟩

/-- Witness for `exec_raise_prints_error_exits_zero`: a constructor that
raises `boom`. -/
theorem exec_raise_prints_error_exits_zero_witness :
    (main ["xavier_bridge.py", "show-backlog"] (fun _ => none)
        ⟨some "boom", fun _ _ => Except.ok []⟩).output =
      ["❌ Error: " ++ "boom"] ∧
    (main ["xavier_bridge.py", "show-backlog"] (fun _ => none)
        ⟨some "boom", fun _ _ => Except.ok []⟩).exitCode = 0 :=
  exec_raise_prints_error_exits_zero "xavier_bridge.py" "show-backlog" []
    (fun _ => none) ⟨some "boom", fun _ _ => Except.ok []⟩ "boom" (Or.inl rfl)

/-- C3: when the space-joined extra arguments fail to decode as JSON, the
bridge swallows the failure (the embedding is a total function) and the
args value passed to the executor is the empty mapping. -/
theorem malformed_args_fall_back_empty (prog command : String)
    (rest : List String) (loads : String → Option JValue) (ex : ExecutorModel)
    (hc : ex.constructError = none)
    (h : loads (String.intercalate " " rest) = none) :
    parseArgs loads rest = JValue.obj [] ∧
    (main (prog :: command :: rest) loads ex).executeCall =
      some (resolveCommand command, JValue.obj []) := by
  have hp : parseArgs loads rest = JValue.obj [] := by
    cases rest with
    | nil => rfl
    | cons a l => simp [parseArgs, h]
  exact ⟨hp, by rw [main_executeCall prog command rest loads ex hc, hp]⟩

/-- Witness for `malformed_args_fall_back_empty`: a decoder that rejects
the joined text `not json`. -/
theorem malformed_args_fall_back_empty_witness :
    parseArgs (fun _ => none) ["not", "json"] = JValue.obj [] ∧
    (main ["xavier_bridge.py", "show-backlog", "not", "json"] (fun _ => none)
        ⟨none, fun _ _ => Except.ok []⟩).executeCall =
      some (resolveCommand "show-backlog", JValue.obj []) :=
  malformed_args_fall_back_empty "xavier_bridge.py" "show-backlog"
    ["not", "json"] (fun _ => none) ⟨none, fun _ _ => Except.ok []⟩ rfl rfl

/-- C4: whenever the executor's `execute` operation is invoked, the command
string it receives begins with a slash, for recognized and unrecognized
names alike (the non-emptiness of the command is not even needed). -/
theorem execute_command_starts_with_slash (prog command : String)
    (rest : List String) (loads : String → Option JValue) (ex : ExecutorModel)
    (s : String) (a : JValue)
    (_hcmd : command ≠ "")
    (h : (main (prog :: command :: rest) loads ex).executeCall = some (s, a)) :
    s.data.head? = some '/' := by
  cases hc : ex.constructError with
  | some e => simp [main, hc] at h
  | none =>
      rw [main_executeCall prog command rest loads ex hc] at h
      simp only [Option.some.injEq, Prod.mk.injEq] at h
      rw [← h.1]
      exact resolveCommand_head command

/-- Witness for `execute_command_starts_with_slash` at the command
`create-story`. -/
theorem execute_command_starts_with_slash_witness :
    ("create-story" : String) ≠ "" ∧
    (main ["xavier_bridge.py", "create-story"] (fun _ => none)
        ⟨none, fun _ _ => Except.ok []⟩).executeCall =
      some ("/create-story", JValue.obj []) ∧
    ("/create-story" : String).data.head? = some '/' :=
  ⟨by decide, by rfl,
   execute_command_starts_with_slash "xavier_bridge.py" "create-story" []
     (fun _ => none) ⟨none, fun _ _ => Except.ok []⟩ "/create-story"
     (JValue.obj []) (by decide) (by rfl)⟩

/-- C5: each of the eleven recognized short command names resolves to the
same name prefixed with a single slash. -/
theorem recognized_aliases_resolve_canonical :
    resolveCommand "create-project" = "/create-project" ∧
    resolveCommand "create-story" = "/create-story" ∧
    resolveCommand "create-task" = "/create-task" ∧
    resolveCommand "create-bug" = "/create-bug" ∧
    resolveCommand "create-sprint" = "/create-sprint" ∧
    resolveCommand "start-sprint" = "/start-sprint" ∧
    resolveCommand "show-backlog" = "/show-backlog" ∧
    resolveCommand "xavier-help" = "/xavier-help" ∧
    resolveCommand "xavier-update" = "/xavier-update" ∧
    resolveCommand "estimate-story" = "/estimate-story" ∧
    resolveCommand "set-story-points" = "/set-story-points" := by
  refine ⟨?_, ?_, ?_, ?_, ?_, ?_, ?_, ?_, ?_, ?_, ?_⟩ <;> rfl

/-- C6: when the executor returns a result dict whose `success` field is
`true` and which contains a `result` field, the bridge's output is exactly
that field's value rendered as JSON with 2-space indentation. -/
theorem success_result_pretty_printed (prog command : String)
    (rest : List String) (loads : String → Option JValue) (ex : ExecutorModel)
    (r : List (String × JValue)) (v : JValue)
    (hc : ex.constructError = none)
    (hx : ex.execute (resolveCommand command) (parseArgs loads rest) =
      Except.ok r)
    (hs : dictGet r "success" = some (JValue.bool true))
    (hr : dictGet r "result" = some v) :
    (main (prog :: command :: rest) loads ex).output = [jsonDumpsIndent2 v] := by
  simp only [main, hc, hx]
  show [formatResult r] = [jsonDumpsIndent2 v]
  unfold formatResult
  rw [hs, hr]
  rfl

/-- Witness for `success_result_pretty_printed` at the result value
`\x7b"a": 1\x7d`. -/
theorem success_result_pretty_printed_witness :
    (main ["xavier_bridge.py", "show-backlog"] (fun _ => none)
        ⟨none, fun _ _ => Except.ok
          [("success", JValue.bool true),
           ("result", JValue.obj [("a", JValue.num 1)])]⟩).output =
      [jsonDumpsIndent2 (JValue.obj [("a", JValue.num 1)])] :=
  success_result_pretty_printed "xavier_bridge.py" "show-backlog" []
    (fun _ => none)
    ⟨none, fun _ _ => Except.ok
      [("success", JValue.bool true),
       ("result", JValue.obj [("a", JValue.num 1)])]⟩
    [("success", JValue.bool true),
     ("result", JValue.obj [("a", JValue.num 1)])]
    (JValue.obj [("a", JValue.num 1)]) rfl rfl rfl rfl

/-- C7: when the executor returns a result dict whose `success` field is
`false`, the bridge prints the error line built from the `error` field
through `str`, defaulting to `Unknown error`; in particular a missing
`error` field yields the line `❌ Error: Unknown error`. -/
theorem failure_prints_error_field (prog command : String)
    (rest : List String) (loads : String → Option JValue) (ex : ExecutorModel)
    (r : List (String × JValue))
    (hc : ex.constructError = none)
    (hx : ex.execute (resolveCommand command) (parseArgs loads rest) =
      Except.ok r)
    (hs : dictGet r "success" = some (JValue.bool false)) :
    (main (prog :: command :: rest) loads ex).output =
      ["❌ Error: " ++
        pyStr ((dictGet r "error").getD (JValue.str "Unknown error"))] ∧
    (dictGet r "error" = none →
      (main (prog :: command :: rest) loads ex).output =
        ["❌ Error: Unknown error"]) := by
  have h1 : (main (prog :: command :: rest) loads ex).output =
      ["❌ Error: " ++
        pyStr ((dictGet r "error").getD (JValue.str "Unknown error"))] := by
    simp only [main, hc, hx]
    show [formatResult r] = _
    unfold formatResult
    rw [hs]
    rfl
  refine ⟨h1, fun he => ?_⟩
  rw [h1, he]
  rfl

/-- Witness for `failure_prints_error_field` at a result dict with no
`error` field. -/
theorem failure_prints_error_field_witness :
    (main ["xavier_bridge.py", "show-backlog"] (fun _ => none)
        ⟨none, fun _ _ =>
          Except.ok [("success", JValue.bool false)]⟩).output =
      ["❌ Error: " ++
        pyStr ((dictGet [("success", JValue.bool false)] "error").getD
          (JValue.str "Unknown error"))] ∧
    (dictGet [("success", JValue.bool false)] "error" = none →
      (main ["xavier_bridge.py", "show-backlog"] (fun _ => none)
          ⟨none, fun _ _ =>
            Except.ok [("success", JValue.bool false)]⟩).output =
        ["❌ Error: Unknown error"]) :=
  failure_prints_error_field "xavier_bridge.py" "show-backlog" []
    (fun _ => none) ⟨none, fun _ _ => Except.ok [("success", JValue.bool false)]⟩
    [("success", JValue.bool false)] rfl rfl rfl

/-- C8: when extra positional arguments are present and their space-joined
text decodes to `v`, the args value passed to the executor is exactly
`v`. -/
theorem valid_json_args_decoded (prog command : String) (rest : List String)
    (loads : String → Option JValue) (ex : ExecutorModel) (v : JValue)
    (hrest : rest ≠ [])
    (hl : loads (String.intercalate " " rest) = some v)
    (hc : ex.constructError = none) :
    parseArgs loads rest = v ∧
    (main (prog :: command :: rest) loads ex).executeCall =
      some (resolveCommand command, v) := by
  have hp : parseArgs loads rest = v := by
    cases rest with
    | nil => exact absurd rfl hrest
    | cons a l => simp [parseArgs, hl]
  exact ⟨hp, by rw [main_executeCall prog command rest loads ex hc, hp]⟩

/-- Witness for `valid_json_args_decoded`: the joined text decodes to the
mapping `\x7b"title": "t"\x7d`. -/
theorem valid_json_args_decoded_witness :
    parseArgs (fun _ => some (JValue.obj [("title", JValue.str "t")]))
      ["\x7b\"title\":", "\"t\"\x7d"] =
      JValue.obj [("title", JValue.str "t")] ∧
    (main ["xavier_bridge.py", "create-story", "\x7b\"title\":", "\"t\"\x7d"]
        (fun _ => some (JValue.obj [("title", JValue.str "t")]))
        ⟨none, fun _ _ => Except.ok []⟩).executeCall =
      some (resolveCommand "create-story",
        JValue.obj [("title", JValue.str "t")]) :=
  valid_json_args_decoded "xavier_bridge.py" "create-story"
    ["\x7b\"title\":", "\"t\"\x7d"]
    (fun _ => some (JValue.obj [("title", JValue.str "t")]))
    ⟨none, fun _ _ => Except.ok []⟩
    (JValue.obj [("title", JValue.str "t")]) (by decide) rfl rfl

/-- C9: with fewer than two entries in `argv` (no command name), the bridge
prints the usage line, exits with status 1, and neither constructs nor
invokes the executor. -/
theorem missing_command_usage_exit1 (argv : List String)
    (loads : String → Option JValue) (ex : ExecutorModel)
    (h : argv.length < 2) :
    (main argv loads ex).output =
      ["Usage: xavier_bridge.py <command> [arguments]"] ∧
    (main argv loads ex).exitCode = 1 ∧
    (main argv loads ex).constructAttempted = false ∧
    (main argv loads ex).executeCall = none := by
  match argv with
  | [] => exact ⟨rfl, rfl, rfl, rfl⟩
  | [_] => exact ⟨rfl, rfl, rfl, rfl⟩
  | _ :: _ :: _ =>
      simp only [List.length_cons] at h
      omega

/-- Witness for `missing_command_usage_exit1` at an `argv` holding only the
program name. -/
theorem missing_command_usage_exit1_witness :
    (main ["xavier_bridge.py"] (fun _ => none)
        ⟨none, fun _ _ => Except.ok []⟩).output =
      ["Usage: xavier_bridge.py <command> [arguments]"] ∧
    (main ["xavier_bridge.py"] (fun _ => none)
        ⟨none, fun _ _ => Except.ok []⟩).exitCode = 1 ∧
    (main ["xavier_bridge.py"] (fun _ => none)
        ⟨none, fun _ _ => Except.ok []⟩).constructAttempted = false ∧
    (main ["xavier_bridge.py"] (fun _ => none)
        ⟨none, fun _ _ => Except.ok []⟩).executeCall = none :=
  missing_command_usage_exit1 ["xavier_bridge.py"] (fun _ => none)
    ⟨none, fun _ _ => Except.ok []⟩ (by decide)

/-- C10: a decoded args value that is not a mapping (here witnessed by its
`isObj` test) is passed to the executor as-is, not replaced by the empty
mapping. -/
theorem nonmapping_args_passed_through (prog command : String)
    (rest : List String) (loads : String → Option JValue) (ex : ExecutorModel)
    (v : JValue)
    (hrest : rest ≠ [])
    (hl : loads (String.intercalate " " rest) = some v)
    (hv : v.isObj = false)
    (hc : ex.constructError = none) :
    (main (prog :: command :: rest) loads ex).executeCall =
      some (resolveCommand command, v) ∧ v ≠ JValue.obj [] := by
  have hp : parseArgs loads rest = v := by
    cases rest with
    | nil => exact absurd rfl hrest
    | cons a l => simp [parseArgs, hl]
  refine ⟨by rw [main_executeCall prog command rest loads ex hc, hp], ?_⟩
  intro h
  rw [h] at hv
  simp [JValue.isObj] at hv

/-- Witness for `nonmapping_args_passed_through`: the joined text decodes
to the number 5. -/
theorem nonmapping_args_passed_through_witness :
    (main ["xavier_bridge.py", "set-story-points", "5"]
        (fun _ => some (JValue.num 5))
        ⟨none, fun _ _ => Except.ok []⟩).executeCall =
      some (resolveCommand "set-story-points", JValue.num 5) ∧
    JValue.num 5 ≠ JValue.obj [] :=
  nonmapping_args_passed_through "xavier_bridge.py" "set-story-points" ["5"]
    (fun _ => some (JValue.num 5)) ⟨none, fun _ _ => Except.ok []⟩
    (JValue.num 5) (by decide) rfl rfl rfl

end XavierBridge
